import Mathlib

/-!
Shallow embedding of the comparative benchmarking harness of the
Splunk-db-connect-benchmark repository (src/benchmarks/*.py), together with
theorems settling the specification claims about it.

Latencies are wall-clock times in milliseconds; the Python scripts hold them
as floats but every operation the claims exercise (sums, means, min, max,
division, comparison) is modelled exactly over ℚ.  The outcome of one call
into an external backend is modelled as an `Except` value (an exception or a
result), and the outcome of one `subprocess.run` of the Splunk dbxquery CLI
as a `SubprocessOutcome`.
-/

/-- `statistics.mean`: the arithmetic mean of a list of latencies
(sum divided by length; the Python call raises on an empty list, the
claims only use it on non-empty lists). -/
def mean (xs : List ℚ) : ℚ := xs.sum / xs.length

/-- Python `min(latencies)` on a non-empty list (the `[]` case is a junk
default, `min` raises in Python on an empty sequence). -/
def minL : List ℚ → ℚ
  | [] => 0
  | x :: t => t.foldl min x

/-- Python `max(latencies)` on a non-empty list (the `[]` case is a junk
default, `max` raises in Python on an empty sequence). -/
def maxL : List ℚ → ℚ
  | [] => 0
  | x :: t => t.foldl max x

/-- `statistics.median`: middle element of the sorted list for odd length,
average of the two middle elements for even length. -/
def median (xs : List ℚ) : ℚ :=
  let s := List.insertionSort (· ≤ ·) xs
  if xs.length % 2 = 1 then s.getD (xs.length / 2) 0
  else (s.getD (xs.length / 2 - 1) 0 + s.getD (xs.length / 2) 0) / 2

/-- The sample variance used by Python `statistics.stdev`:
sum of squared deviations from the mean divided by `n - 1`. -/
def sampleVariance (xs : List ℚ) : ℚ :=
  (xs.map (fun x => (x - mean xs) ^ 2)).sum / ((xs.length : ℚ) - 1)

/-- The guarded standard deviation the scripts compute:
`statistics.stdev(latencies) if len(latencies) > 1 else 0`
(01_native_baseline.py `print_result`, 04_parquet_multi_engine.py
`benchmark_query`, postgresql_benchmark.py `benchmark_query`). -/
noncomputable def stddev_ms (xs : List ℚ) : ℝ :=
  if 1 < xs.length then Real.sqrt (sampleVariance xs) else 0

/-- The three comparison metrics of 04_parquet_multi_engine.py `main`
(lines 153-155). -/
structure ComparisonResult where
  overhead_ms : ℚ
  overhead_pct : ℚ
  slowdown_factor : ℚ
deriving DecidableEq

/-- The comparison computation of 04_parquet_multi_engine.py `main`:
`overhead_ms = parquet.avg - native.avg`,
`overhead_pct = overhead_ms / native.avg * 100 if native.avg > 0 else 0`,
`slowdown_factor = parquet.avg / native.avg if native.avg > 0 else 0`. -/
def comparator (avg_native avg_parquet : ℚ) : ComparisonResult :=
  let overhead_ms := avg_parquet - avg_native
  { overhead_ms := overhead_ms
  , overhead_pct := if avg_native > 0 then overhead_ms / avg_native * 100 else 0
  , slowdown_factor := if avg_native > 0 then avg_parquet / avg_native else 0 }

/-- The dict returned by 01_native_baseline.py `run_benchmark` on success. -/
structure RunResult where
  latencies : List ℚ
  row_count : ℕ
  avg_latency_ms : ℚ
  min_latency_ms : ℚ
  max_latency_ms : ℚ
deriving DecidableEq

/-- The iteration loop of 01_native_baseline.py `run_benchmark`: call
`query_func` once per remaining iteration, keeping the last result rows and
appending each latency; on the first exception the whole loop answers `none`
(the Python `return None`), discarding the partial latency list.  `f i` is the
outcome of the call made in iteration `i`. -/
def runLoop {ρ : Type} (f : ℕ → Except String (List ρ × ℚ)) :
    ℕ → ℕ → Option (List ρ) → List ℚ → Option (Option (List ρ) × List ℚ)
  | _, 0, results, lats => some (results, lats)
  | i, n + 1, _, lats =>
    match f i with
    | Except.ok (r, lat) => runLoop f (i + 1) n (some r) (lats ++ [lat])
    | Except.error _ => none

/-- 01_native_baseline.py `run_benchmark`: run `iterations` iterations; on
success build the result dict (`row_count` is `len(results) if results else
0`, which is 0 both for `None` and for an empty row list). -/
def run_benchmark {ρ : Type} (f : ℕ → Except String (List ρ × ℚ))
    (iterations : ℕ) : Option RunResult :=
  match runLoop f 0 iterations none [] with
  | none => none
  | some (results, lats) =>
    some { latencies := lats
         , row_count := (results.getD []).length
         , avg_latency_ms := mean lats
         , min_latency_ms := minL lats
         , max_latency_ms := maxL lats }

/-- The per-database result dict built by the `main` functions of
01_native_baseline.py and 02_splunk_dbxquery_overhead.py: an entry is stored
for a query id only when the runner returned a result (`if result:`); a
`None` outcome leaves no entry. -/
def storeResults {α : Type} (rs : List (String × Option α)) :
    List (String × α) :=
  rs.filterMap (fun p => p.2.map (fun v => (p.1, v)))

/-- One database section of 01_native_baseline.py `main`: iterate the query
catalog in order and store each successful result under its query id. -/
def orchestrate01 (queries : List String) (runs : String → Option RunResult) :
    List (String × RunResult) :=
  storeResults (queries.map (fun q => (q, runs q)))

/-- 01_native_baseline.py `main`, reduced to one database section plus the
process exit status: the script swallows every per-query failure (it only
prints an error), never calls `sys.exit`, and `main` returning normally makes
the interpreter exit with status 0 whatever happened to individual queries. -/
def main01 (queries : List String) (runs : String → Option RunResult) :
    List (String × RunResult) × ℕ :=
  (orchestrate01 queries runs, 0)

/-- The outcome of one `subprocess.run` of the Splunk dbxquery CLI in
02_splunk_dbxquery_overhead.py: the process completed with a return code,
stdout, stderr and an elapsed time, or `subprocess.TimeoutExpired` was
raised, or some other exception was raised. -/
inductive SubprocessOutcome : Type where
  | completed (returncode : Int) (stdout stderr : String) (elapsed : ℚ)
  | timedOut (elapsed : ℚ)
  | raised (msg : String) (elapsed : ℚ)
deriving DecidableEq

/-- The wall-clock time measured for the invocation, failed or not. -/
def SubprocessOutcome.elapsed : SubprocessOutcome → ℚ
  | .completed _ _ _ t => t
  | .timedOut t => t
  | .raised _ t => t

/-- An invocation counts as successful exactly when the subprocess completed
with return code 0. -/
def SubprocessOutcome.isSuccess : SubprocessOutcome → Bool
  | .completed rc _ _ _ => rc == 0
  | _ => false

/-- 02_splunk_dbxquery_overhead.py `query_via_splunk_dbxquery`: on return
code 0 it answers `(stdout, elapsed)`; on a nonzero return code, on
`subprocess.TimeoutExpired` and on any other exception it prints an error and
answers `(None, elapsed)`.  Every branch returns normally: the function never
lets an exception escape. -/
def query_via_splunk_dbxquery (o : SubprocessOutcome) : Option String × ℚ :=
  match o with
  | .completed rc out _ t => if rc = 0 then (some out, t) else (none, t)
  | .timedOut t => (none, t)
  | .raised _ t => (none, t)

/-- The latency-collecting loop shared by the direct phase of
02_splunk_dbxquery_overhead.py `run_overhead_benchmark` and by both phases of
03_iceberg_multi_engine.py `run_iceberg_comparison`: append each latency, and
on the first exception answer `none` (the Python `return None`). -/
def collectOrAbort {ρ : Type} (f : ℕ → Except String (List ρ × ℚ)) :
    ℕ → ℕ → List ℚ → Option (List ℚ)
  | _, 0, lats => some lats
  | i, n + 1, lats =>
    match f i with
    | Except.ok (_, lat) => collectOrAbort f (i + 1) n (lats ++ [lat])
    | Except.error _ => none

/-- The dict returned by 02_splunk_dbxquery_overhead.py
`run_overhead_benchmark` on success. -/
structure OverheadResult where
  direct_latencies : List ℚ
  splunk_latencies : List ℚ
  avg_direct_ms : ℚ
  avg_splunk_ms : ℚ
  overhead_ms : ℚ
  overhead_pct : ℚ
deriving DecidableEq

/-- 02_splunk_dbxquery_overhead.py `run_overhead_benchmark`.  The direct
phase aborts with `None` on the first exception.  The Splunk phase calls
`query_via_splunk_dbxquery`, which returns on every modelled outcome, so its
`try` body never raises and the loop appends the elapsed time of every
iteration, failed or not.  `overhead_pct` is
`(overhead_ms / avg_direct) * 100 if avg_direct > 0 else 0`. -/
def run_overhead_benchmark {ρ : Type} (direct : ℕ → Except String (List ρ × ℚ))
    (outcomes : ℕ → SubprocessOutcome) (iterations : ℕ) :
    Option OverheadResult :=
  match collectOrAbort direct 0 iterations [] with
  | none => none
  | some dl =>
    let sl := (List.range iterations).map
      (fun i => (query_via_splunk_dbxquery (outcomes i)).2)
    let avg_direct := mean dl
    let avg_splunk := mean sl
    let overhead_ms := avg_splunk - avg_direct
    some { direct_latencies := dl
         , splunk_latencies := sl
         , avg_direct_ms := avg_direct
         , avg_splunk_ms := avg_splunk
         , overhead_ms := overhead_ms
         , overhead_pct :=
             if avg_direct > 0 then overhead_ms / avg_direct * 100 else 0 }

/-- The dict returned by 03_iceberg_multi_engine.py `run_iceberg_comparison`
on success. -/
structure IcebergResult where
  native_latencies : List ℚ
  iceberg_latencies : List ℚ
  avg_native_ms : ℚ
  avg_iceberg_ms : ℚ
  slowdown_factor : ℚ
deriving DecidableEq

/-- 03_iceberg_multi_engine.py `run_iceberg_comparison`: run the native
phase, then the Iceberg phase, each aborting the whole call with `None` on
the first exception; `slowdown_factor` is
`avg_iceberg / avg_native if avg_native > 0 else 0`. -/
def run_iceberg_comparison {ρ : Type}
    (nativeF icebergF : ℕ → Except String (List ρ × ℚ)) (iterations : ℕ) :
    Option IcebergResult :=
  match collectOrAbort nativeF 0 iterations [] with
  | none => none
  | some nl =>
    match collectOrAbort icebergF 0 iterations [] with
    | none => none
    | some il =>
      some { native_latencies := nl
           , iceberg_latencies := il
           , avg_native_ms := mean nl
           , avg_iceberg_ms := mean il
           , slowdown_factor :=
               if mean nl > 0 then mean il / mean nl else 0 }

/-- The timing-statistics dict built by 04_parquet_multi_engine.py
`benchmark_query` (its `stddev_ms` field is the derived accessor
`Stats04.stddev` below, kept out of the record so the record stays
computable over ℚ). -/
structure Stats04 where
  min_ms : ℚ
  max_ms : ℚ
  avg_ms : ℚ
  median_ms : ℚ
  latencies : List ℚ
deriving DecidableEq

/-- The `stddev_ms` field of the dict of 04_parquet_multi_engine.py
`benchmark_query`: `statistics.stdev(latencies) if len(latencies) > 1 else
0`. -/
noncomputable def Stats04.stddev (s : Stats04) : ℝ := stddev_ms s.latencies

/-- The iteration loop of 04_parquet_multi_engine.py `benchmark_query`.
Unlike the runners of scripts 01-03 this loop has no `try`/`except`: an
exception in `client.query` propagates to the caller, which the embedding
renders as `Except.error`. -/
def bq04Loop (f : ℕ → Except String ℚ) :
    ℕ → ℕ → List ℚ → Except String (List ℚ)
  | _, 0, lats => Except.ok lats
  | i, n + 1, lats =>
    match f i with
    | Except.ok lat => bq04Loop f (i + 1) n (lats ++ [lat])
    | Except.error e => Except.error e

/-- 04_parquet_multi_engine.py `benchmark_query`: run the loop and build the
statistics dict; any backend exception propagates unhandled. -/
def benchmark_query04 (f : ℕ → Except String ℚ) (iterations : ℕ) :
    Except String Stats04 :=
  match bq04Loop f 0 iterations [] with
  | Except.error e => Except.error e
  | Except.ok lats =>
    Except.ok { min_ms := minL lats
              , max_ms := maxL lats
              , avg_ms := mean lats
              , median_ms := median lats
              , latencies := lats }

/-- The per-query loop of 04_parquet_multi_engine.py `main`: for each query
run the native benchmark, then the Parquet benchmark, then compute the three
comparison metrics (lines 153-155) and store the entry.  `main` wraps none of
this in `try`/`except`, so the first backend exception aborts the whole run:
in the embedding the list of per-query entries is only produced when every
call succeeded.  `f q b i` is the backend outcome for query `q`, phase `b`
(`false` = native, `true` = parquet), iteration `i`. -/
def main04 (queries : List String) (f : String → Bool → ℕ → Except String ℚ)
    (iterations : ℕ) :
    Except String (List (String × Stats04 × Stats04 × ComparisonResult)) :=
  queries.mapM (fun q => do
    let nat ← benchmark_query04 (f q false) iterations
    let par ← benchmark_query04 (f q true) iterations
    Except.ok (q, nat, par, comparator nat.avg_ms par.avg_ms))

/-- The summary phase of 02_splunk_dbxquery_overhead.py `main` (lines
343-360): for each of the three databases it evaluates
`statistics.mean([all_results[db][q]['overhead_ms'] for q in QUERIES])` and
likewise for `overhead_pct`; a query id missing from `all_results[db]` makes
the subscript raise `KeyError`, modelled as `Except.error`. -/
def summary02 (report : List (String × List (String × OverheadResult)))
    (dbs queries : List String) : Except String (List (ℚ × ℚ)) :=
  dbs.mapM (fun db => do
    let ohs ← queries.mapM (fun q =>
      match ((report.lookup db).getD []).lookup q with
      | some r => Except.ok r.overhead_ms
      | none => Except.error ("KeyError: " ++ q))
    let pcts ← queries.mapM (fun q =>
      match ((report.lookup db).getD []).lookup q with
      | some r => Except.ok r.overhead_pct
      | none => Except.error ("KeyError: " ++ q))
    Except.ok (mean ohs, mean pcts))

/-- 02_splunk_dbxquery_overhead.py `main`, reduced to its report-building,
summary and persistence structure: every (database, query) pair is
benchmarked and successful outcomes are stored (`if result:`); then the
summary runs; only if the summary raised no `KeyError` does control reach the
`json.dump` that writes the results file (the `true` flag).  An unhandled
`KeyError` crashes the process, so the file is never written and the
interpreter exits with a nonzero status. -/
def main02 (dbs queries : List String)
    (runs : String → String → Option OverheadResult) :
    Except String ((List (String × List (String × OverheadResult))) × Bool) :=
  match summary02 (dbs.map (fun d =>
      (d, storeResults (queries.map (fun x => (x, runs d x)))))) dbs queries with
  | Except.error e => Except.error e
  | Except.ok _ =>
    Except.ok (dbs.map (fun d =>
      (d, storeResults (queries.map (fun x => (x, runs d x))))), true)

/-- 01_native_baseline.py `query_postgresql` (and the analogous direct-query
samplers): connect, execute the query and fetch the rows, measure the elapsed
time, and return `(results, latency_ms)`.  There is no `try`/`except`: a
failure of the connect or of the execute/fetch propagates to the caller. -/
def query_postgresql {σ ρ : Type} (connect : Except String σ)
    (execFetch : σ → Except String (List ρ)) (elapsed : ℚ) :
    Except String (List ρ × ℚ) := do
  let conn ← connect
  let rows ← execFetch conn
  Except.ok (rows, elapsed)

/-- Backend stub for the C8 witness: latencies 10 then 20. -/
def fW8 : ℕ → Except String ℚ :=
  fun i => if i = 0 then Except.ok 10 else Except.ok 20

/-- Expected statistics dict of the C8 witness run. -/
def sW8 : Stats04 :=
  { min_ms := minL [10, 20], max_ms := maxL [10, 20], avg_ms := mean [10, 20]
  , median_ms := median [10, 20], latencies := [10, 20] }

/-- Backend stub for the C1 witness: iteration 0 succeeds, iteration 1
raises. -/
def failAt1 : ℕ → Except String (List Unit × ℚ) :=
  fun j => if j = 1 then Except.error "boom" else Except.ok ([], 1)

/-- Direct-phase stub for the C9 witness: one successful direct call. -/
def directW : ℕ → Except String (List Unit × ℚ) := fun _ => Except.ok ([], 1)

/-- Proxied-phase stub for the C9 witness: every invocation times out. -/
def outcomesW : ℕ → SubprocessOutcome := fun _ => SubprocessOutcome.timedOut 7

/-- Expected overhead dict of the C9 witness run. -/
def rW : OverheadResult :=
  { direct_latencies := [1]
  , splunk_latencies := [7]
  , avg_direct_ms := mean [1]
  , avg_splunk_ms := mean [7]
  , overhead_ms := mean [7] - mean [1]
  , overhead_pct :=
      if mean [1] > 0 then (mean [7] - mean [1]) / mean [1] * 100 else 0 }

/-- Backend stub for the C2 counterexample: every native-phase call raises.
(`false` = native phase, `true` = parquet phase.) -/
def fail04 : String → Bool → ℕ → Except String ℚ :=
  fun _ phase _ =>
    if phase then Except.ok 1 else Except.error "connection refused"

/-- A successful one-iteration run result, used by the C5 counterexample. -/
def okRun : RunResult :=
  { latencies := [1], row_count := 0, avg_latency_ms := mean [1]
  , min_latency_ms := minL [1], max_latency_ms := maxL [1] }

-- Basic facts about minL, maxL and mean.

theorem foldl_min_le_init (t : List ℚ) (x : ℚ) : t.foldl min x ≤ x := by
  induction t generalizing x with
  | nil => simp
  | cons a t ih =>
    simpa using le_trans (ih (min x a)) (min_le_left x a)

theorem foldl_min_le_mem (t : List ℚ) (x y : ℚ) (hy : y ∈ t) :
    t.foldl min x ≤ y := by
  induction t generalizing x with
  | nil => cases hy
  | cons a t ih =>
    rcases List.mem_cons.mp hy with h | h
    · subst h
      simpa using le_trans (foldl_min_le_init t (min x y)) (min_le_right x y)
    · simpa using ih (min x a) h

theorem init_le_foldl_max (t : List ℚ) (x : ℚ) : x ≤ t.foldl max x := by
  induction t generalizing x with
  | nil => simp
  | cons a t ih =>
    simpa using le_trans (le_max_left x a) (ih (max x a))

theorem mem_le_foldl_max (t : List ℚ) (x y : ℚ) (hy : y ∈ t) :
    y ≤ t.foldl max x := by
  induction t generalizing x with
  | nil => cases hy
  | cons a t ih =>
    rcases List.mem_cons.mp hy with h | h
    · subst h
      simpa using le_trans (le_max_right x y) (init_le_foldl_max t (max x y))
    · simpa using ih (max x a) h

theorem minL_le_mem (xs : List ℚ) (y : ℚ) (hy : y ∈ xs) : minL xs ≤ y := by
  cases xs with
  | nil => cases hy
  | cons x t =>
    rcases List.mem_cons.mp hy with h | h
    · subst h; exact foldl_min_le_init t y
    · exact foldl_min_le_mem t x y h

theorem mem_le_maxL (xs : List ℚ) (y : ℚ) (hy : y ∈ xs) : y ≤ maxL xs := by
  cases xs with
  | nil => cases hy
  | cons x t =>
    rcases List.mem_cons.mp hy with h | h
    · subst h; exact init_le_foldl_max t y
    · exact mem_le_foldl_max t x y h

theorem minL_le_mean (xs : List ℚ) (h : xs ≠ []) : minL xs ≤ mean xs := by
  have hlen : 0 < (xs.length : ℚ) := by
    have := List.length_pos.mpr h
    exact_mod_cast this
  have hsum : (xs.length : ℚ) * minL xs ≤ xs.sum := by
    have := List.card_nsmul_le_sum xs (minL xs) (fun y hy => minL_le_mem xs y hy)
    simpa [nsmul_eq_mul] using this
  have : minL xs ≤ xs.sum / xs.length := (le_div_iff₀ hlen).mpr (by linarith)
  simpa [mean] using this

theorem mean_le_maxL (xs : List ℚ) (h : xs ≠ []) : mean xs ≤ maxL xs := by
  have hlen : 0 < (xs.length : ℚ) := by
    have := List.length_pos.mpr h
    exact_mod_cast this
  have hsum : xs.sum ≤ (xs.length : ℚ) * maxL xs := by
    have := List.sum_le_card_nsmul xs (maxL xs) (fun y hy => mem_le_maxL xs y hy)
    simpa [nsmul_eq_mul] using this
  have : xs.sum / xs.length ≤ maxL xs := (div_le_iff₀ hlen).mpr (by linarith)
  simpa [mean] using this

-- Abort behaviour of the iteration loops.

theorem runLoop_err {ρ : Type} (f : ℕ → Except String (List ρ × ℚ)) :
    ∀ (n i : ℕ) (results : Option (List ρ)) (lats : List ℚ) (k : ℕ)
      (e : String), k < n → (∀ j, j < k → ∃ r, f (i + j) = Except.ok r) →
      f (i + k) = Except.error e → runLoop f i n results lats = none := by
  intro n
  induction n with
  | zero => intro i results lats k e hk; exact absurd hk (Nat.not_lt_zero k)
  | succ n ih =>
    intro i results lats k e hk hok herr
    cases k with
    | zero =>
      have h0 : f i = Except.error e := by simpa using herr
      simp [runLoop, h0]
    | succ k =>
      obtain ⟨r, hr⟩ := hok 0 (Nat.succ_pos k)
      have hr' : f i = Except.ok r := by simpa using hr
      obtain ⟨rv, lat⟩ := r
      have hstep : runLoop f i (n + 1) results lats
          = runLoop f (i + 1) n (some rv) (lats ++ [lat]) := by
        simp [runLoop, hr']
      rw [hstep]
      refine ih (i + 1) (some rv) (lats ++ [lat]) k e (by omega) ?_ ?_
      · intro j hj
        obtain ⟨r', hr'j⟩ := hok (j + 1) (by omega)
        have hidx : i + (j + 1) = i + 1 + j := by omega
        exact ⟨r', by rw [hidx] at hr'j; exact hr'j⟩
      · have hidx : i + (k + 1) = i + 1 + k := by omega
        rw [hidx] at herr; exact herr

theorem collectOrAbort_err {ρ : Type} (f : ℕ → Except String (List ρ × ℚ)) :
    ∀ (n i : ℕ) (lats : List ℚ) (k : ℕ) (e : String), k < n →
      (∀ j, j < k → ∃ r, f (i + j) = Except.ok r) →
      f (i + k) = Except.error e → collectOrAbort f i n lats = none := by
  intro n
  induction n with
  | zero => intro i lats k e hk; exact absurd hk (Nat.not_lt_zero k)
  | succ n ih =>
    intro i lats k e hk hok herr
    cases k with
    | zero =>
      have h0 : f i = Except.error e := by simpa using herr
      simp [collectOrAbort, h0]
    | succ k =>
      obtain ⟨r, hr⟩ := hok 0 (Nat.succ_pos k)
      have hr' : f i = Except.ok r := by simpa using hr
      obtain ⟨rv, lat⟩ := r
      have hstep : collectOrAbort f i (n + 1) lats
          = collectOrAbort f (i + 1) n (lats ++ [lat]) := by
        simp [collectOrAbort, hr']
      rw [hstep]
      refine ih (i + 1) (lats ++ [lat]) k e (by omega) ?_ ?_
      · intro j hj
        obtain ⟨r', hr'j⟩ := hok (j + 1) (by omega)
        have hidx : i + (j + 1) = i + 1 + j := by omega
        exact ⟨r', by rw [hidx] at hr'j; exact hr'j⟩
      · have hidx : i + (k + 1) = i + 1 + k := by omega
        rw [hidx] at herr; exact herr

theorem bq04Loop_err_first (f : ℕ → Except String ℚ) (n : ℕ) (lats : List ℚ)
    (e : String) (h0 : f 0 = Except.error e) (hn : 1 ≤ n) :
    bq04Loop f 0 n lats = Except.error e := by
  cases n with
  | zero => omega
  | succ n => simp [bq04Loop, h0]

theorem benchmark_query04_err_first (f : ℕ → Except String ℚ) (n : ℕ)
    (e : String) (h0 : f 0 = Except.error e) (hn : 1 ≤ n) :
    benchmark_query04 f n = Except.error e := by
  simp [benchmark_query04, bq04Loop_err_first f n [] e h0 hn]

theorem bq04Loop_ok_length (f : ℕ → Except String ℚ) :
    ∀ (n i : ℕ) (lats0 lats : List ℚ), bq04Loop f i n lats0 = Except.ok lats →
      lats.length = lats0.length + n := by
  intro n
  induction n with
  | zero =>
    intro i lats0 lats h
    simp [bq04Loop] at h
    simp [← h]
  | succ n ih =>
    intro i lats0 lats h
    cases hf : f i with
    | error e => simp [bq04Loop, hf] at h
    | ok lat =>
      have hstep : bq04Loop f i (n + 1) lats0
          = bq04Loop f (i + 1) n (lats0 ++ [lat]) := by
        simp [bq04Loop, hf]
      rw [hstep] at h
      have := ih (i + 1) (lats0 ++ [lat]) lats h
      simp at this
      omega

-- Lookup and counting facts about the per-database report dicts.

theorem lookup_storeResults_notMem {α : Type} (queries : List String)
    (runs : String → Option α) (q : String) (hq : q ∉ queries) :
    (storeResults (queries.map (fun x => (x, runs x)))).lookup q = none := by
  induction queries with
  | nil => simp [storeResults]
  | cons a t ih =>
    have hqa : q ≠ a := fun h => hq (h ▸ List.mem_cons_self a t)
    have hqt : q ∉ t := fun h => hq (List.mem_cons_of_mem a h)
    cases ha : runs a with
    | none => simpa [storeResults, ha] using ih hqt
    | some v =>
      have : (storeResults ((a :: t).map (fun x => (x, runs x))))
          = (a, v) :: storeResults (t.map (fun x => (x, runs x))) := by
        simp [storeResults, ha]
      rw [this]
      simpa [List.lookup_cons, beq_false_of_ne hqa] using ih hqt

theorem lookup_storeResults {α : Type} (queries : List String)
    (runs : String → Option α) (q : String) (hnd : queries.Nodup)
    (hq : q ∈ queries) :
    (storeResults (queries.map (fun x => (x, runs x)))).lookup q = runs q := by
  induction queries with
  | nil => cases hq
  | cons a t ih =>
    have hnd' : t.Nodup := (List.nodup_cons.mp hnd).2
    have hat : a ∉ t := (List.nodup_cons.mp hnd).1
    rcases List.mem_cons.mp hq with h | h
    · subst h
      cases ha : runs q with
      | none =>
        have : (storeResults ((q :: t).map (fun x => (x, runs x))))
            = storeResults (t.map (fun x => (x, runs x))) := by
          simp [storeResults, ha]
        rw [this]
        exact lookup_storeResults_notMem t runs q hat
      | some v =>
        have : (storeResults ((q :: t).map (fun x => (x, runs x))))
            = (q, v) :: storeResults (t.map (fun x => (x, runs x))) := by
          simp [storeResults, ha]
        rw [this, List.lookup_cons]
        simp [ha]
    · have hqa : q ≠ a := fun hEq => hat (hEq ▸ h)
      cases ha : runs a with
      | none =>
        have : (storeResults ((a :: t).map (fun x => (x, runs x))))
            = storeResults (t.map (fun x => (x, runs x))) := by
          simp [storeResults, ha]
        rw [this]; exact ih hnd' h
      | some v =>
        have : (storeResults ((a :: t).map (fun x => (x, runs x))))
            = (a, v) :: storeResults (t.map (fun x => (x, runs x))) := by
          simp [storeResults, ha]
        rw [this]
        simpa [List.lookup_cons, beq_false_of_ne hqa] using ih hnd' h

theorem countP_storeResults_notMem {α : Type} (queries : List String)
    (runs : String → Option α) (q : String) (hq : q ∉ queries) :
    (storeResults (queries.map (fun x => (x, runs x)))).countP
      (fun p => p.1 == q) = 0 := by
  induction queries with
  | nil => simp [storeResults]
  | cons a t ih =>
    have hqa : q ≠ a := fun h => hq (h ▸ List.mem_cons_self a t)
    have hqt : q ∉ t := fun h => hq (List.mem_cons_of_mem a h)
    cases ha : runs a with
    | none => simpa [storeResults, ha] using ih hqt
    | some v =>
      have : (storeResults ((a :: t).map (fun x => (x, runs x))))
          = (a, v) :: storeResults (t.map (fun x => (x, runs x))) := by
        simp [storeResults, ha]
      rw [this, List.countP_cons]
      have : (a == q) = false := by simp [Ne.symm hqa]
      simp only [this]
      simpa using ih hqt

theorem countP_storeResults {α : Type} (queries : List String)
    (runs : String → Option α) (q : String) (hnd : queries.Nodup)
    (hq : q ∈ queries) :
    (storeResults (queries.map (fun x => (x, runs x)))).countP
      (fun p => p.1 == q) = if (runs q).isSome then 1 else 0 := by
  induction queries with
  | nil => cases hq
  | cons a t ih =>
    have hnd' : t.Nodup := (List.nodup_cons.mp hnd).2
    have hat : a ∉ t := (List.nodup_cons.mp hnd).1
    rcases List.mem_cons.mp hq with h | h
    · subst h
      cases ha : runs q with
      | none =>
        have hrw : (storeResults ((q :: t).map (fun x => (x, runs x))))
            = storeResults (t.map (fun x => (x, runs x))) := by
          simp [storeResults, ha]
        rw [hrw]
        simp [countP_storeResults_notMem t runs q hat]
      | some v =>
        have hrw : (storeResults ((q :: t).map (fun x => (x, runs x))))
            = (q, v) :: storeResults (t.map (fun x => (x, runs x))) := by
          simp [storeResults, ha]
        rw [hrw, List.countP_cons]
        rw [countP_storeResults_notMem t runs q hat]
        simp [ha]
    · have hqa : q ≠ a := fun hEq => hat (hEq ▸ h)
      cases ha : runs a with
      | none =>
        have hrw : (storeResults ((a :: t).map (fun x => (x, runs x))))
            = storeResults (t.map (fun x => (x, runs x))) := by
          simp [storeResults, ha]
        rw [hrw]; exact ih hnd' h
      | some v =>
        have hrw : (storeResults ((a :: t).map (fun x => (x, runs x))))
            = (a, v) :: storeResults (t.map (fun x => (x, runs x))) := by
          simp [storeResults, ha]
        rw [hrw, List.countP_cons]
        have hfalse : (a == q) = false := by simp [Ne.symm hqa]
        simp only [hfalse]
        simpa using ih hnd' h

theorem lookup_map_self {α : Type} (dbs : List String) (F : String → α)
    (db : String) (hdb : db ∈ dbs) :
    (dbs.map (fun d => (d, F d))).lookup db = some (F db) := by
  induction dbs with
  | nil => cases hdb
  | cons a t ih =>
    by_cases h : db = a
    · subst h; simp [List.lookup_cons]
    · rcases List.mem_cons.mp hdb with h' | h'
      · exact absurd h' h
      · rw [List.map_cons]
        simpa [List.lookup_cons, beq_false_of_ne h] using ih h'

-- mapM over the Except monad.

theorem exceptMapM_ok_forall {α β : Type} {f : α → Except String β} :
    ∀ {l : List α} {ys : List β}, l.mapM f = Except.ok ys →
      ∀ x ∈ l, ∃ y, f x = Except.ok y := by
  intro l
  induction l with
  | nil => intro ys h x hx; cases hx
  | cons a t ih =>
    intro ys h x hx
    rw [List.mapM_cons] at h
    cases hfa : f a with
    | error e => rw [hfa] at h; simp [Bind.bind, Except.bind] at h
    | ok b =>
      rw [hfa] at h
      cases hmt : t.mapM f with
      | error e => rw [hmt] at h; simp [Bind.bind, Except.bind] at h
      | ok bs =>
        rcases List.mem_cons.mp hx with hxa | hxt
        · exact ⟨b, hxa ▸ hfa⟩
        · exact ih hmt x hxt

theorem exceptMapM_ok_of_forall {α β : Type} (f : α → Except String β) :
    ∀ (l : List α), (∀ x ∈ l, ∃ y, f x = Except.ok y) →
      ∃ ys, l.mapM f = Except.ok ys := by
  intro l
  induction l with
  | nil => intro _; exact ⟨[], rfl⟩
  | cons a t ih =>
    intro h
    obtain ⟨b, hb⟩ := h a (List.mem_cons_self a t)
    obtain ⟨bs, hbs⟩ := ih (fun x hx => h x (List.mem_cons_of_mem a hx))
    refine ⟨b :: bs, ?_⟩
    rw [List.mapM_cons, hb, hbs]
    rfl

-- Claim theorems.

/-- Claim C4: the Comparator returns `overhead_ms = comparand - baseline`;
when the baseline mean is 0 both `overhead_pct` and `slowdown_factor` are 0;
for a nonzero (nonnegative) baseline mean they equal
`(comparand - baseline) / baseline * 100` and `comparand / baseline`; and the
concrete pair of means (100, 150) yields exactly (50, 50%, 1.5x). -/
theorem comparator_spec (b c : ℚ) (hb : 0 ≤ b) :
    (comparator b c).overhead_ms = c - b
  ∧ (b = 0 → (comparator b c).overhead_pct = 0
      ∧ (comparator b c).slowdown_factor = 0)
  ∧ (b ≠ 0 → (comparator b c).overhead_pct = (c - b) / b * 100
      ∧ (comparator b c).slowdown_factor = c / b)
  ∧ comparator 100 150
      = { overhead_ms := 50, overhead_pct := 50, slowdown_factor := 3 / 2 } := by
  refine ⟨rfl, ?_, ?_, ?_⟩
  · intro h0
    subst h0
    constructor <;> simp [comparator]
  · intro hne
    have hpos : 0 < b := lt_of_le_of_ne hb (Ne.symm hne)
    constructor <;> simp [comparator, hpos]
  · norm_num [comparator, ComparisonResult.mk.injEq]

/-- Witness for C4 at the concrete pair of the specification. -/
theorem comparator_spec_witness :
    (0 : ℚ) ≤ 100 ∧ (comparator 100 150).overhead_ms = 150 - 100 :=
  ⟨by decide, (comparator_spec 100 150 (by decide)).1⟩

/-- Claim C7: for every sample set with at most one sample (in particular a
singleton), the guarded standard deviation the scripts compute is exactly 0
(the guard takes the `else 0` branch, so no division by `n - 1 = 0` and no
NaN can arise). -/
theorem stddev_singleton (xs : List ℚ) (h : xs.length ≤ 1) :
    stddev_ms xs = 0 := by
  unfold stddev_ms
  rw [if_neg]
  omega

/-- Witness for C7 on the singleton sample set `[42]`. -/
theorem stddev_singleton_witness :
    ([(42 : ℚ)]).length ≤ 1 ∧ stddev_ms [(42 : ℚ)] = 0 :=
  ⟨by decide, stddev_singleton [(42 : ℚ)] (by decide)⟩

/-- Claim C8: the statistics the benchmark loop computes from a non-empty
sample set satisfy min ≤ mean ≤ max, both for the dict built by
04_parquet_multi_engine.py `benchmark_query` and for the bare aggregate
functions used by every script. -/
theorem stats_min_mean_max (f : ℕ → Except String ℚ) (N : ℕ) (s : Stats04)
    (hN : 1 ≤ N) (h : benchmark_query04 f N = Except.ok s) :
    (s.min_ms ≤ s.avg_ms ∧ s.avg_ms ≤ s.max_ms)
  ∧ ∀ xs : List ℚ, xs ≠ [] → minL xs ≤ mean xs ∧ mean xs ≤ maxL xs := by
  have hgen : ∀ xs : List ℚ, xs ≠ [] → minL xs ≤ mean xs ∧ mean xs ≤ maxL xs :=
    fun xs hxs => ⟨minL_le_mean xs hxs, mean_le_maxL xs hxs⟩
  refine ⟨?_, hgen⟩
  unfold benchmark_query04 at h
  cases hb : bq04Loop f 0 N [] with
  | error e => rw [hb] at h; cases h
  | ok lats =>
    rw [hb] at h
    simp only [Except.ok.injEq] at h
    subst h
    have hlen := bq04Loop_ok_length f N 0 [] lats hb
    have hne : lats ≠ [] := by
      intro hnil
      rw [hnil] at hlen
      simp at hlen
      omega
    exact ⟨minL_le_mean lats hne, mean_le_maxL lats hne⟩

/-- Witness for C8 on a concrete two-iteration run. -/
theorem stats_min_mean_max_witness :
    (1 ≤ 2 ∧ benchmark_query04 fW8 2 = Except.ok sW8)
  ∧ (sW8.min_ms ≤ sW8.avg_ms ∧ sW8.avg_ms ≤ sW8.max_ms) :=
  ⟨⟨by decide, rfl⟩, (stats_min_mean_max fW8 2 sW8 (by decide) rfl).1⟩

/-- Claim C1: if iteration `k` of a run fails after `k` successful
iterations, the Iterated Runner of scripts 01, 02 and 03 returns the failure
marker `None`, discarding the partial latency list; the result does not
depend on what the backend would have answered after iteration `k` (no
further iterations are observed); and a `None` result leaves no entry in the
per-database results dict, so a pair with zero successful iterations never
contributes a statistics entry. -/
theorem runner_aborts_on_failure {ρ : Type}
    (f : ℕ → Except String (List ρ × ℚ)) (N k : ℕ) (e : String) (hk : k < N)
    (hok : ∀ j, j < k → ∃ r, f j = Except.ok r)
    (herr : f k = Except.error e) :
    run_benchmark f N = none
  ∧ (∀ g : ℕ → Except String (List ρ × ℚ), (∀ j, j ≤ k → g j = f j) →
      run_benchmark g N = none)
  ∧ (∀ q : String,
      storeResults [(q, run_benchmark f N)] = ([] : List (String × RunResult)))
  ∧ (∀ outcomes : ℕ → SubprocessOutcome,
      run_overhead_benchmark f outcomes N = none)
  ∧ (∀ g : ℕ → Except String (List ρ × ℚ),
      run_iceberg_comparison f g N = none) := by
  have hok0 : ∀ j, j < k → ∃ r, f (0 + j) = Except.ok r := by
    intro j hj; simpa using hok j hj
  have herr0 : f (0 + k) = Except.error e := by simpa using herr
  have hrl : runLoop f 0 N none [] = none :=
    runLoop_err f N 0 none [] k e hk hok0 herr0
  have hca : collectOrAbort f 0 N [] = none :=
    collectOrAbort_err f N 0 [] k e hk hok0 herr0
  refine ⟨?_, ?_, ?_, ?_, ?_⟩
  · simp [run_benchmark, hrl]
  · intro g hg
    have hgok : ∀ j, j < k → ∃ r, g (0 + j) = Except.ok r := by
      intro j hj
      obtain ⟨r, hr⟩ := hok j hj
      exact ⟨r, by simpa [hg j (le_of_lt hj)] using hr⟩
    have hgerr : g (0 + k) = Except.error e := by
      simpa [hg k le_rfl] using herr
    have := runLoop_err g N 0 none [] k e hk hgok hgerr
    simp [run_benchmark, this]
  · intro q
    have hnone : run_benchmark f N = none := by simp [run_benchmark, hrl]
    simp [storeResults, hnone]
  · intro outcomes
    simp [run_overhead_benchmark, hca]
  · intro g
    simp [run_iceberg_comparison, hca]

/-- Witness for C1 on a concrete 3-iteration run failing at iteration 1. -/
theorem runner_aborts_witness :
    (1 < 3 ∧ failAt1 1 = Except.error "boom")
  ∧ run_benchmark failAt1 3 = none
  ∧ run_overhead_benchmark failAt1 (fun _ => SubprocessOutcome.timedOut 7) 3
      = none
  ∧ run_iceberg_comparison failAt1 failAt1 3 = none := by
  have h := runner_aborts_on_failure failAt1 3 1 "boom" (by decide)
    (fun j hj => ⟨([], 1), by
      have hj0 : j = 0 := Nat.lt_one_iff.mp hj
      subst hj0
      rfl⟩)
    rfl
  exact ⟨⟨by decide, rfl⟩, h.1, h.2.2.2.1 _, h.2.2.2.2 _⟩

/-- Claim C3 counterexample: on a timeout the dbxquery sampler of
02_splunk_dbxquery_overhead.py returns the normal value `(None, elapsed)`
instead of raising an error carrying the cause, refuting the claim that the
Sampler never swallows a failure of the underlying execution call. -/
theorem dbxquery_swallows_timeout :
    query_via_splunk_dbxquery (SubprocessOutcome.timedOut 300000)
      = (none, 300000) := rfl

/-- Claim C3 amended: the direct-query samplers (`query_postgresql` and its
clones) propagate the underlying failure to the caller, but the Splunk
dbxquery sampler catches every failure (nonzero return code, timeout, any
other exception) and returns `(None, elapsed_ms)` as a normal value. -/
theorem sampler_error_policy (σ ρ : Type) :
    (∀ (c : σ) (execFetch : σ → Except String (List ρ)) (t : ℚ) (e : String),
      execFetch c = Except.error e →
      query_postgresql (Except.ok c) execFetch t = Except.error e)
  ∧ (∀ (e : String) (execFetch : σ → Except String (List ρ)) (t : ℚ),
      query_postgresql (Except.error e) execFetch t = Except.error e)
  ∧ (∀ o : SubprocessOutcome, o.isSuccess = false →
      query_via_splunk_dbxquery o = (none, o.elapsed)) := by
  refine ⟨?_, ?_, ?_⟩
  · intro c ex t e he
    simp [query_postgresql, Bind.bind, Except.bind, he]
  · intro e ex t
    simp [query_postgresql, Bind.bind, Except.bind]
  · intro o ho
    cases o with
    | completed rc out err t =>
      have hrc : ¬ rc = 0 := by
        intro hh
        subst hh
        simp [SubprocessOutcome.isSuccess] at ho
      simp [query_via_splunk_dbxquery, SubprocessOutcome.elapsed, hrc]
    | timedOut t => rfl
    | raised m t => rfl

/-- Witness for the amended C3 on concrete failing calls. -/
theorem sampler_error_policy_witness :
    ((fun _ : Unit => (Except.error "db down" : Except String (List Unit))) ()
        = Except.error "db down")
  ∧ query_postgresql (Except.ok ())
      (fun _ : Unit => (Except.error "db down" : Except String (List Unit))) 3
      = Except.error "db down"
  ∧ query_via_splunk_dbxquery (SubprocessOutcome.raised "exec format error" 4)
      = (none, (SubprocessOutcome.raised "exec format error" 4).elapsed) := by
  refine ⟨rfl, ?_, ?_⟩
  · exact (sampler_error_policy Unit Unit).1 () _ 3 "db down" rfl
  · exact (sampler_error_policy Unit Unit).2.2 _ rfl

/-- Claim C9: on a completed dbxquery-overhead run, the proxied latency list
is exactly the elapsed time of all `N` invocations in order (so it always
reaches length `N`), the proxied mean is the mean of that full list, every
invocation (failed ones included, whose elapsed time equals what the sampler
returned) contributes its latency, and a failed invocation yields the normal
value `(None, elapsed)` from the sampler. -/
theorem splunk_latencies_complete {ρ : Type}
    (direct : ℕ → Except String (List ρ × ℚ))
    (outcomes : ℕ → SubprocessOutcome) (N : ℕ) (r : OverheadResult)
    (h : run_overhead_benchmark direct outcomes N = some r) :
    r.splunk_latencies
      = (List.range N).map (fun i => (query_via_splunk_dbxquery (outcomes i)).2)
  ∧ r.splunk_latencies.length = N
  ∧ r.avg_splunk_ms = mean r.splunk_latencies
  ∧ (∀ k, k < N →
      (query_via_splunk_dbxquery (outcomes k)).2 = (outcomes k).elapsed
      ∧ (outcomes k).elapsed ∈ r.splunk_latencies)
  ∧ (∀ o : SubprocessOutcome, o.isSuccess = false →
      (query_via_splunk_dbxquery o).1 = none) := by
  have hsnd : ∀ o : SubprocessOutcome,
      (query_via_splunk_dbxquery o).2 = o.elapsed := by
    intro o
    cases o with
    | completed rc out err t =>
      by_cases hrc : rc = 0 <;>
        simp [query_via_splunk_dbxquery, SubprocessOutcome.elapsed, hrc]
    | timedOut t => rfl
    | raised m t => rfl
  unfold run_overhead_benchmark at h
  cases hca : collectOrAbort direct 0 N [] with
  | none => rw [hca] at h; cases h
  | some dl =>
    rw [hca] at h
    simp only [Option.some.injEq] at h
    subst h
    refine ⟨rfl, by simp, rfl, ?_, ?_⟩
    · intro k hk
      refine ⟨hsnd (outcomes k), ?_⟩
      rw [← hsnd (outcomes k)]
      exact List.mem_map.mpr ⟨k, List.mem_range.mpr hk, rfl⟩
    · intro o ho
      cases o with
      | completed rc out err t =>
        have hrc : ¬ rc = 0 := by
          intro hh
          subst hh
          simp [SubprocessOutcome.isSuccess] at ho
        simp [query_via_splunk_dbxquery, hrc]
      | timedOut t => rfl
      | raised m t => rfl

/-- Witness for C9 on a one-iteration run whose only proxied invocation
times out: its elapsed time still lands in the proxied latency list. -/
theorem splunk_latencies_complete_witness :
    run_overhead_benchmark directW outcomesW 1 = some rW
  ∧ rW.splunk_latencies.length = 1
  ∧ (outcomesW 0).elapsed ∈ rW.splunk_latencies := by
  have h : run_overhead_benchmark directW outcomesW 1 = some rW := rfl
  have hc := splunk_latencies_complete directW outcomesW 1 rW h
  exact ⟨h, hc.2.1, (hc.2.2.2.1 0 (by decide)).2⟩

-- Lookup into the nested all_results dict of 02_splunk_dbxquery_overhead.py.

theorem report_lookup (dbs queries : List String)
    (runs : String → String → Option OverheadResult) (db q : String)
    (hdb : db ∈ dbs) (hnd : queries.Nodup) (hq : q ∈ queries) :
    (((dbs.map (fun d =>
        (d, storeResults (queries.map (fun x => (x, runs d x)))))).lookup
          db).getD []).lookup q = runs db q := by
  rw [lookup_map_self dbs
    (fun d => storeResults (queries.map (fun x => (x, runs d x)))) db hdb]
  exact lookup_storeResults queries (runs db) q hnd hq

theorem summary02_ok (report : List (String × List (String × OverheadResult)))
    (dbs queries : List String)
    (hall : ∀ db ∈ dbs, ∀ q ∈ queries,
      ∃ r, ((report.lookup db).getD []).lookup q = some r) :
    ∃ ys, summary02 report dbs queries = Except.ok ys := by
  unfold summary02
  apply exceptMapM_ok_of_forall
  intro db hdb
  obtain ⟨ohs, h1⟩ := exceptMapM_ok_of_forall
    (fun q => match ((report.lookup db).getD []).lookup q with
      | some r => Except.ok r.overhead_ms
      | none => Except.error ("KeyError: " ++ q)) queries
    (fun q hq => by
      obtain ⟨r, hr⟩ := hall db hdb q hq
      exact ⟨r.overhead_ms, by simp [hr]⟩)
  obtain ⟨pcts, h2⟩ := exceptMapM_ok_of_forall
    (fun q => match ((report.lookup db).getD []).lookup q with
      | some r => Except.ok r.overhead_pct
      | none => Except.error ("KeyError: " ++ q)) queries
    (fun q hq => by
      obtain ⟨r, hr⟩ := hall db hdb q hq
      exact ⟨r.overhead_pct, by simp [hr]⟩)
  refine ⟨(mean ohs, mean pcts), ?_⟩
  simp only [h1, h2]
  rfl

theorem summary02_not_ok_of_missing (dbs queries : List String)
    (runs : String → String → Option OverheadResult) (db q : String)
    (hdb : db ∈ dbs) (hq : q ∈ queries) (hnd : queries.Nodup)
    (hfail : runs db q = none) :
    ∀ ys, summary02 (dbs.map (fun d =>
        (d, storeResults (queries.map (fun x => (x, runs d x)))))) dbs queries
      ≠ Except.ok ys := by
  intro ys h
  unfold summary02 at h
  obtain ⟨y, hy⟩ := exceptMapM_ok_forall h db hdb
  cases hm1 : queries.mapM (fun x =>
      match (((dbs.map (fun d =>
          (d, storeResults (queries.map (fun x' => (x', runs d x')))))).lookup
            db).getD []).lookup x with
        | some r => Except.ok r.overhead_ms
        | none => Except.error ("KeyError: " ++ x)) with
  | error e =>
    rw [hm1] at hy
    simp [Bind.bind, Except.bind] at hy
  | ok ohs =>
    obtain ⟨z, hz⟩ := exceptMapM_ok_forall hm1 q hq
    rw [report_lookup dbs queries runs db q hdb hnd hq, hfail] at hz
    simp at hz

theorem main02_error_of_missing (dbs queries : List String)
    (runs : String → String → Option OverheadResult) (db q : String)
    (hdb : db ∈ dbs) (hq : q ∈ queries) (hnd : queries.Nodup)
    (hfail : runs db q = none) :
    ∃ e, main02 dbs queries runs = Except.error e := by
  cases hs : summary02 (dbs.map (fun d =>
      (d, storeResults (queries.map (fun x => (x, runs d x)))))) dbs queries with
  | error e => exact ⟨e, by simp [main02, hs]⟩
  | ok ys =>
    exact absurd hs (summary02_not_ok_of_missing dbs queries runs db q hdb hq
      hnd hfail ys)

theorem main02_ok_of_all_present (dbs queries : List String)
    (runs : String → String → Option OverheadResult) (hnd : queries.Nodup)
    (hall : ∀ db ∈ dbs, ∀ q ∈ queries, (runs db q).isSome) :
    ∃ rep, main02 dbs queries runs = Except.ok (rep, true) := by
  obtain ⟨ys, hys⟩ := summary02_ok (dbs.map (fun d =>
      (d, storeResults (queries.map (fun x => (x, runs d x)))))) dbs queries
    (fun db hdb q hq => by
      rw [report_lookup dbs queries runs db q hdb hnd hq]
      exact Option.isSome_iff_exists.mp (hall db hdb q hq))
  refine ⟨dbs.map (fun d =>
    (d, storeResults (queries.map (fun x => (x, runs d x))))), ?_⟩
  simp [main02, hys]

theorem exceptMapM_err_head {α β : Type} (f : α → Except String β) (a : α)
    (as : List α) (e : String) (h : f a = Except.error e) :
    (a :: as).mapM f = Except.error e := by
  show List.mapM.loop f (a :: as) [] = Except.error e
  simp [List.mapM.loop, h, Bind.bind, Except.bind]

/-- Claim C2 counterexample: in 04_parquet_multi_engine.py a backend
exception inside `benchmark_query` propagates and aborts the whole run.  On
this two-query catalog whose first native call raises, `main` ends in the
exception instead of proceeding to the remaining (query, context) pairs, so
the claim that no error below the orchestrator ever aborts the run is false
for this script. -/
theorem parquet_error_aborts_run :
    main04 ["count_all", "aggregation_by_event_type"] fail04 5
      = Except.error "connection refused" := rfl

/-- Claim C2 amended: in scripts 01-03 a backend error is captured at the
per-(query, context) level (each catalog entry of the report depends only on
its own pair's outcome, a failed pair simply yielding no entry while the
orchestrator continues), but in script 04 the per-query benchmark loop has no
exception handling, so the first backend exception aborts the whole run with
that error. -/
theorem error_containment (queries : List String)
    (runs : String → Option RunResult) (q : String) (hnd : queries.Nodup)
    (hq : q ∈ queries) (rest : List String) (q0 : String)
    (f : String → Bool → ℕ → Except String ℚ) (N : ℕ) (e : String)
    (h0 : f q0 false 0 = Except.error e) (hN : 1 ≤ N) :
    (orchestrate01 queries runs).lookup q = runs q
  ∧ main04 (q0 :: rest) f N = Except.error e := by
  constructor
  · exact lookup_storeResults queries runs q hnd hq
  · have hb : benchmark_query04 (f q0 false) N = Except.error e :=
      benchmark_query04_err_first (f q0 false) N e h0 hN
    unfold main04
    apply exceptMapM_err_head
    simp [hb, Bind.bind, Except.bind]

/-- Witness for the amended C2. -/
theorem error_containment_witness :
    ((["count_all"] : List String).Nodup
      ∧ "count_all" ∈ (["count_all"] : List String)
      ∧ fail04 "count_all" false 0 = Except.error "connection refused")
  ∧ (orchestrate01 ["count_all"] (fun _ => none)).lookup "count_all" = none
  ∧ main04 ["count_all", "aggregation_by_event_type"] fail04 5
      = Except.error "connection refused" := by
  have h := error_containment ["count_all"] (fun _ => none) "count_all"
    (by decide) (by decide) ["aggregation_by_event_type"] "count_all" fail04 5
    "connection refused" rfl (by decide)
  exact ⟨⟨by decide, by decide, rfl⟩, h.1, h.2⟩

/-- Claim C5 counterexample: on a catalog where the first query's run fails
(and the second succeeds), the persisted per-database report of
01_native_baseline.py has no entry at all for the failed query — it is
silently dropped rather than recorded as FAILED with a reason — so the claim
that every catalog query has exactly one tagged entry in the output report is
false. -/
theorem failed_query_dropped :
    ((orchestrate01 ["count_all", "aggregation_by_event_type"]
        (fun q => if q = "count_all" then none else some okRun)).lookup
      "count_all" = none)
  ∧ "count_all" ∈ ["count_all", "aggregation_by_event_type"] :=
  ⟨rfl, by decide⟩

/-- Claim C5 amended: the persisted report contains exactly one entry for a
query whose run succeeded and no entry for a query whose run failed (its
failure is reported only on the console); there is no DONE/SKIPPED/FAILED
tagging. -/
theorem report_entries_iff_success (queries : List String)
    (runs : String → Option RunResult) (q : String) (hnd : queries.Nodup)
    (hq : q ∈ queries) :
    (orchestrate01 queries runs).countP (fun p => p.1 == q)
        = (if (runs q).isSome then 1 else 0)
  ∧ (orchestrate01 queries runs).lookup q = runs q :=
  ⟨countP_storeResults queries runs q hnd hq,
   lookup_storeResults queries runs q hnd hq⟩

/-- Witness for the amended C5: a failed query leaves zero report entries. -/
theorem report_entries_iff_success_witness :
    (["count_all"] : List String).Nodup
  ∧ (orchestrate01 ["count_all"] (fun _ => (none : Option RunResult))).countP
      (fun p => p.1 == "count_all")
    = (if ((none : Option RunResult)).isSome then 1 else 0) :=
  ⟨by decide,
   (report_entries_iff_success ["count_all"] (fun _ => none) "count_all"
     (by decide) (by decide)).1⟩

/-- Claim C6 counterexample: a run of 01_native_baseline.py in which the
only query failed still exits with status 0 — the script never sets a
nonzero exit code — so the claim that any FAILED query makes the exit code
nonzero is false. -/
theorem exit_zero_despite_failure :
    ((fun _ : String => (none : Option RunResult)) "count_all" = none)
  ∧ (main01 ["count_all"] (fun _ => none)).2 = 0 :=
  ⟨rfl, rfl⟩

/-- Claim C6 amended: 01_native_baseline.py exits with status 0 whenever its
`main` completes, whatever happened to individual queries (failures
included); 02_splunk_dbxquery_overhead.py exits nonzero when some (database,
query) pair failed, but only because the summary crashes on an unhandled
`KeyError`, and exits 0 when every pair succeeded. -/
theorem exit_code_policy (queries : List String)
    (runs : String → Option RunResult) (dbs queries2 : List String)
    (runs2 : String → String → Option OverheadResult) (db q : String)
    (hdb : db ∈ dbs) (hq : q ∈ queries2) (hnd : queries2.Nodup)
    (hfail : runs2 db q = none) :
    (main01 queries runs).2 = 0
  ∧ (∃ e, main02 dbs queries2 runs2 = Except.error e)
  ∧ (∀ dbs' queries' runs', queries'.Nodup →
      (∀ d ∈ dbs', ∀ x ∈ queries', (runs' d x).isSome) →
      ∃ rep, main02 dbs' queries' runs' = Except.ok (rep, true)) :=
  ⟨rfl,
   main02_error_of_missing dbs queries2 runs2 db q hdb hq hnd hfail,
   fun dbs' queries' runs' hnd' hall' =>
     main02_ok_of_all_present dbs' queries' runs' hnd' hall'⟩

/-- Witness for the amended C6. -/
theorem exit_code_policy_witness :
    ("postgresql" ∈ ["postgresql", "clickhouse", "starrocks"]
      ∧ "count_all" ∈ (["count_all"] : List String)
      ∧ (["count_all"] : List String).Nodup)
  ∧ (main01 ["count_all"] (fun _ => none)).2 = 0
  ∧ (∃ e, main02 ["postgresql", "clickhouse", "starrocks"] ["count_all"]
      (fun _ _ => none) = Except.error e) := by
  have h := exit_code_policy ["count_all"] (fun _ => none)
    ["postgresql", "clickhouse", "starrocks"] ["count_all"] (fun _ _ => none)
    "postgresql" "count_all" (by decide) (by decide) (by decide) rfl
  exact ⟨⟨by decide, by decide, by decide⟩, h.1, h.2.1⟩

/-- Claim C10: when at least one (database, query) pair of
02_splunk_dbxquery_overhead.py fails (so `all_results[db]` has no entry for
that query), the summary phase's `all_results[db][q]` subscript raises an
unhandled `KeyError`: the run crashes after benchmarking, and control never
reaches the `json.dump`, so the results file is never written. -/
theorem splunk_summary_keyerror (dbs queries : List String)
    (runs : String → String → Option OverheadResult) (db q : String)
    (hdb : db ∈ dbs) (hq : q ∈ queries) (hnd : queries.Nodup)
    (hfail : runs db q = none) :
    (∃ e, main02 dbs queries runs = Except.error e)
  ∧ ∀ rep flag, main02 dbs queries runs ≠ Except.ok (rep, flag) := by
  obtain ⟨e, he⟩ :=
    main02_error_of_missing dbs queries runs db q hdb hq hnd hfail
  exact ⟨⟨e, he⟩, fun rep flag hok => by rw [he] at hok; cases hok⟩

/-- Witness for C10: with all three database sections failing on the single
catalog query, the run ends in an error and the ok/file-written state is
unreachable. -/
theorem splunk_summary_keyerror_witness :
    ("postgresql" ∈ ["postgresql", "clickhouse", "starrocks"]
      ∧ "count_all" ∈ (["count_all"] : List String)
      ∧ (["count_all"] : List String).Nodup)
  ∧ (∃ e, main02 ["postgresql", "clickhouse", "starrocks"] ["count_all"]
      (fun _ _ => (none : Option OverheadResult)) = Except.error e) := by
  have h := splunk_summary_keyerror ["postgresql", "clickhouse", "starrocks"]
    ["count_all"] (fun _ _ => none) "postgresql" "count_all" (by decide)
    (by decide) (by decide) rfl
  exact ⟨⟨by decide, by decide, by decide⟩, h.1⟩
